import Mathlib

namespace HotAnimals

/- Shallow embedding of the hot-animals ETL pipeline:
   src/src/transformers.py, src/src/models.py, src/src/api_client.py,
   src/src/config.py and src/src/etl_processor.py.
   Python strings are modelled by Lean String; str.split and str.strip by
   explicit functions over character lists; datetime objects by a record of
   calendar fields plus an optional UTC offset in minutes; the third-party
   permissive date parser (dateutil.parser.parse) by a function parameter of
   type String → Option PyDatetime (none models ValueError/ParserError);
   the network by functions from request index to outcome. -/

def lstrip (l : List Char) : List Char := l.dropWhile Char.isWhitespace

def rstrip (l : List Char) : List Char := (l.reverse.dropWhile Char.isWhitespace).reverse

def stripList (l : List Char) : List Char := rstrip (lstrip l)

def pyStrip (s : String) : String := ⟨stripList s.data⟩

def splitCommaAux : List Char → List Char → List (List Char)
  | [], acc => [acc.reverse]
  | c :: cs, acc => if c = ',' then acc.reverse :: splitCommaAux cs [] else splitCommaAux cs (c :: acc)

def pySplitComma (s : String) : List String := (splitCommaAux s.data []).map (fun l => ⟨l⟩)

/- transformers.transform_friends: guard `not friends_str or friends_str.strip() == ""`
   (None is modelled by the `none` case), then split on comma, strip each piece,
   drop empty pieces. -/
def transform_friends : Option String → List String
  | none => []
  | some s =>
    if s = "" ∨ pyStrip s = "" then []
    else ((pySplitComma s).map pyStrip).filter (fun x => x ≠ "")

/- Modelled from the spec (section 4.2), for comparison with transform_friends:
   empty/blank/absent input gives the empty list; a non-empty string is split on
   comma, each piece trimmed, empty pieces dropped, order preserved. -/
def normalizeFriends_spec : Option String → List String
  | none => []
  | some s =>
    if pyStrip s = "" then []
    else ((pySplitComma s).map pyStrip).filter (fun x => x ≠ "")

/- Python datetime objects, at second granularity: calendar fields plus an
   optional fixed UTC offset in minutes (none models tzinfo is None). -/
structure PyDatetime where
  year : Nat
  month : Nat
  day : Nat
  hour : Nat
  minute : Nat
  second : Nat
  tzOffsetMinutes : Option Int
deriving DecidableEq

def natDigit (n : Nat) : Char := Char.ofNat (48 + n)

def pad2 (n : Nat) : String := ⟨[natDigit (n / 10 % 10), natDigit (n % 10)]⟩

def pad4 (n : Nat) : String :=
  ⟨[natDigit (n / 1000 % 10), natDigit (n / 100 % 10), natDigit (n / 10 % 10), natDigit (n % 10)]⟩

def offsetText (o : Int) : String :=
  (if o < 0 then "-" else "+") ++ pad2 (o.natAbs / 60) ++ ":" ++ pad2 (o.natAbs % 60)

/- datetime.isoformat(): YYYY-MM-DDTHH:MM:SS, followed by the +HH:MM offset
   when the datetime is timezone-aware, by nothing when it is naive. -/
def PyDatetime.isoformat (d : PyDatetime) : String :=
  pad4 d.year ++ "-" ++ pad2 d.month ++ "-" ++ pad2 d.day ++ "T" ++
  pad2 d.hour ++ ":" ++ pad2 d.minute ++ ":" ++ pad2 d.second ++
  (match d.tzOffsetMinutes with
   | none => ""
   | some o => offsetText o)

/- datetime.replace(tzinfo=tz.UTC): attach UTC without moving the instant. -/
def tzReplaceUTC (d : PyDatetime) : PyDatetime := { d with tzOffsetMinutes := some 0 }

/- Civil calendar arithmetic (Gregorian), used to model datetime.astimezone. -/
def daysFromCivil (y : Int) (m d : Int) : Int :=
  let y2 := if m ≤ 2 then y - 1 else y
  let era := Int.fdiv y2 400
  let yoe := y2 - era * 400
  let mp := Int.emod (m + 9) 12
  let doy := Int.fdiv (153 * mp + 2) 5 + d - 1
  let doe := yoe * 365 + Int.fdiv yoe 4 - Int.fdiv yoe 100 + doy
  era * 146097 + doe - 719468

def civilFromDays (z0 : Int) : Int × Nat × Nat :=
  let z := z0 + 719468
  let era := Int.fdiv z 146097
  let doe := z - era * 146097
  let yoe := Int.fdiv (doe - Int.fdiv doe 1460 + Int.fdiv doe 36524 - Int.fdiv doe 146096) 365
  let y := yoe + era * 400
  let doy := doe - (365 * yoe + Int.fdiv yoe 4 - Int.fdiv yoe 100)
  let mp := Int.fdiv (5 * doy + 2) 153
  let d := doy - Int.fdiv (153 * mp + 2) 5 + 1
  let m := if mp < 10 then mp + 3 else mp - 9
  (if m ≤ 2 then y + 1 else y, m.toNat, d.toNat)

/- datetime.astimezone(tz.UTC) on an aware datetime: subtract the offset from
   the wall-clock time and re-express the instant with a zero offset. The
   source only calls astimezone on timezone-aware values; on a naive value the
   model leaves the fields unchanged apart from attaching UTC. -/
def PyDatetime.astimezoneUTC (d : PyDatetime) : PyDatetime :=
  match d.tzOffsetMinutes with
  | none => { d with tzOffsetMinutes := some 0 }
  | some off =>
    let total : Int :=
      daysFromCivil (Int.ofNat d.year) (Int.ofNat d.month) (Int.ofNat d.day) * 1440 +
      Int.ofNat d.hour * 60 + Int.ofNat d.minute - off
    let dayCount := Int.fdiv total 1440
    let rem := (Int.fmod total 1440).toNat
    let c := civilFromDays dayCount
    { year := c.1.toNat, month := c.2.1, day := c.2.2,
      hour := rem / 60, minute := rem % 60, second := d.second,
      tzOffsetMinutes := some 0 }

/- models.py value shapes after pydantic validation. -/
inductive FriendsVal
  | str (s : String)
  | list (l : List String)
deriving DecidableEq

inductive BornAtVal
  | str (s : String)
  | dt (d : PyDatetime)
deriving DecidableEq

structure TransformationError where
  message : String
  animal_id : Option Int
  field : Option String
deriving DecidableEq

structure AnimalSummary where
  id : Int
  name : String
deriving DecidableEq

structure AnimalDetail where
  id : Int
  name : String
  friends : FriendsVal
  born_at : Option BornAtVal
  extra : List (String × String)
deriving DecidableEq

structure TransformedAnimal where
  id : Int
  name : String
  friends : List String
  born_at : Option String
  extra : List (String × String)
deriving DecidableEq

/- Raw JSON-ish field values reaching the pydantic validators. -/
inductive RawFriends
  | str (s : String)
  | list (l : List String)
  | null
deriving DecidableEq

inductive RawBorn
  | str (s : String)
  | dt (d : PyDatetime)
  | null
deriving DecidableEq

/- AnimalDetail.validate_friends: a string passes through; a list keeps only
   truthy items (for string items: the non-empty ones); None becomes "". -/
def validate_friends : RawFriends → FriendsVal
  | RawFriends.str s => FriendsVal.str s
  | RawFriends.list l => FriendsVal.list (l.filter (fun x => x ≠ ""))
  | RawFriends.null => FriendsVal.str ""

/- AnimalDetail.validate_born_at: None or "" become None; datetime and other
   strings pass through. -/
def validate_born_at : RawBorn → Option BornAtVal
  | RawBorn.null => none
  | RawBorn.str s => if s = "" then none else some (BornAtVal.str s)
  | RawBorn.dt d => some (BornAtVal.dt d)

def mkAnimalDetail (idv : Int) (namev : String) (rf : RawFriends) (rb : RawBorn)
    (extra : List (String × String)) : AnimalDetail :=
  { id := idv, name := namev, friends := validate_friends rf,
    born_at := validate_born_at rb, extra := extra }

/- transformers.transform_born_at, parameterised by the dateutil parser. -/
def transform_born_at (parse : String → Option PyDatetime) :
    Option BornAtVal → Except TransformationError (Option String)
  | none => Except.ok none
  | some (BornAtVal.dt d) =>
    if d.tzOffsetMinutes = none then Except.ok (some (tzReplaceUTC d).isoformat)
    else Except.ok (some d.astimezoneUTC.isoformat)
  | some (BornAtVal.str s) =>
    if pyStrip s = "" then Except.ok none
    else
      match parse s with
      | some p =>
        if p.tzOffsetMinutes = none then Except.ok (some (tzReplaceUTC p).isoformat)
        else Except.ok (some p.astimezoneUTC.isoformat)
      | none =>
        Except.error { message := "Failed to parse born_at value: " ++ s,
                       animal_id := none, field := some ("born_at") }

/- transformers.transform_animal: friends pass through when already a list,
   otherwise go through transform_friends; a datetime born_at is emitted via
   isoformat directly, any other born_at goes through transform_born_at;
   id, name and the passthrough fields are copied unchanged. -/
def transform_animal (parse : String → Option PyDatetime) (animal : AnimalDetail) :
    Except TransformationError TransformedAnimal :=
  match (match animal.born_at with
         | some (BornAtVal.dt d) => Except.ok (some d.isoformat)
         | v => transform_born_at parse v) with
  | Except.error e => Except.error e
  | Except.ok b =>
    Except.ok { id := animal.id, name := animal.name,
                friends := (match animal.friends with
                            | FriendsVal.list l => l
                            | FriendsVal.str s => transform_friends (some s)),
                born_at := b, extra := animal.extra }

/- transformers.transform_animals_batch: each record independently; a failing
   record is dropped (its error only logged), successes keep their order. -/
def transform_animals_batch (parse : String → Option PyDatetime) :
    List AnimalDetail → List TransformedAnimal
  | [] => []
  | a :: rest =>
    match transform_animal parse a with
    | Except.ok t => t :: transform_animals_batch parse rest
    | Except.error _ => transform_animals_batch parse rest

/- config.py defaults. -/
def BATCH_SIZE : Nat := 100

def MAX_RETRIES : Nat := 3

def START_PAGE : Nat := 1

def RETRY_STATUS_CODES : List Nat := [500, 502, 503, 504]

/- One network interaction outcome for api_client._make_request: a response
   with a status code and body, a requests.Timeout, or a
   requests.ConnectionError. -/
inductive ReqOutcome
  | response (status : Nat) (body : String)
  | timeout
  | connError
deriving DecidableEq

/- Exceptions escaping one attempt of the _make_request body: models.APIError
   (with optional status code and response text), or a re-raised
   requests.HTTPError. -/
inductive ReqError
  | apiError (status : Option Nat) (body : Option String)
  | httpError (status : Nat)
deriving DecidableEq

/- tenacity retry_if_exception_type((requests.RequestException, APIError)):
   APIError is retried, and requests.HTTPError is a RequestException, so it is
   retried as well. -/
def retryableError : ReqError → Bool
  | ReqError.apiError _ _ => true
  | ReqError.httpError _ => true

/- One attempt of the _make_request body: a status in RETRY_STATUS_CODES
   raises APIError; raise_for_status raises HTTPError on any other 4xx/5xx,
   which the handler converts to APIError when the status is not in the retry
   set (and would re-raise otherwise); Timeout and ConnectionError become
   APIError without a status code. -/
def attemptOnce : ReqOutcome → Except ReqError (Nat × String)
  | ReqOutcome.timeout => Except.error (ReqError.apiError none none)
  | ReqOutcome.connError => Except.error (ReqError.apiError none none)
  | ReqOutcome.response st body =>
    if st ∈ RETRY_STATUS_CODES then Except.error (ReqError.apiError (some st) (some body))
    else if 400 ≤ st ∧ st < 600 then
      if st ∈ RETRY_STATUS_CODES then Except.error (ReqError.httpError st)
      else Except.error (ReqError.apiError (some st) (some body))
    else Except.ok (st, body)

/- tenacity loop: stop_after_attempt(maxRetries), reraise=True. The second
   component counts HTTP requests actually issued. -/
def make_request_go (world : Nat → ReqOutcome) : Nat → Nat → Except ReqError (Nat × String) × Nat
  | 0, i => (Except.error (ReqError.apiError none none), i)
  | n + 1, i =>
    match attemptOnce (world i) with
    | Except.ok r => (Except.ok r, i + 1)
    | Except.error e =>
      if retryableError e = true ∧ n ≠ 0 then make_request_go world n (i + 1)
      else (Except.error e, i + 1)

def make_request (world : Nat → ReqOutcome) (maxRetries : Nat) :
    Except ReqError (Nat × String) × Nat :=
  make_request_go world maxRetries 0

/- One page of the paginated list endpoint (models.PaginatedResponse). -/
structure PageResp where
  page : Nat
  total_pages : Nat
  items : List AnimalSummary
deriving DecidableEq

/- api_client.get_all_animals: starting at START_PAGE, fetch a page, extend the
   accumulator with its items, stop when the current page number has reached
   that page response total_pages, else advance. The page world gives the
   outcome of get_animals_page for each page number; the fuel bounds the loop
   (none models a run that has not terminated within the fuel). The Nat
   component counts page requests issued. -/
def get_all_animals_go (world : Nat → Except ReqError PageResp) :
    Nat → Nat → Option (Except ReqError (List AnimalSummary) × Nat)
  | 0, _ => none
  | fuel + 1, current =>
    match world current with
    | Except.error e => some (Except.error e, 1)
    | Except.ok p =>
      if p.total_pages ≤ current then some (Except.ok p.items, 1)
      else
        match get_all_animals_go world fuel (current + 1) with
        | none => none
        | some (Except.error e, n) => some (Except.error e, n + 1)
        | some (Except.ok rest, n) => some (Except.ok (p.items ++ rest), n + 1)

def get_all_animals (world : Nat → Except ReqError PageResp) (fuel : Nat) :
    Option (Except ReqError (List AnimalSummary) × Nat) :=
  get_all_animals_go world fuel START_PAGE

/- Exceptions escaping api_client.submit_animals_batch: the ValueError raised
   on an oversized batch, or an APIError from the POST. -/
inductive SubmitError
  | valueError (n : Nat)
  | apiError (e : ReqError)
deriving DecidableEq

/- api_client.submit_animals_batch: more than 100 records raises ValueError
   before any request is made; otherwise the batch is POSTed through
   _make_request and True is returned on success. The Nat component counts
   HTTP requests issued. -/
def submit_animals_batch (world : Nat → ReqOutcome) (maxRetries : Nat)
    (animals : List TransformedAnimal) : Except SubmitError Bool × Nat :=
  if 100 < animals.length then (Except.error (SubmitError.valueError animals.length), 0)
  else
    match make_request world maxRetries with
    | (Except.ok _, n) => (Except.ok true, n)
    | (Except.error e, n) => (Except.error (SubmitError.apiError e), n)

/- etl_processor.ETLStats (the timing fields are not modelled). -/
structure ETLStats where
  total_animals_found : Nat
  total_animals_detailed : Nat
  total_animals_transformed : Nat
  total_animals_submitted : Nat
  total_batches_submitted : Nat
  failed_details : Nat
  failed_transformations : Nat
  failed_submissions : Nat
deriving DecidableEq

def emptyStats : ETLStats :=
  { total_animals_found := 0, total_animals_detailed := 0,
    total_animals_transformed := 0, total_animals_submitted := 0,
    total_batches_submitted := 0, failed_details := 0,
    failed_transformations := 0, failed_submissions := 0 }

/- The environment a run interacts with: the page listing world, the fuel for
   the pagination loop, the per-id outcome of get_animal_detail, the dateutil
   parser, the per-batch network world for submissions, and the configured
   MAX_RETRIES and batch size. -/
structure Env where
  pages : Nat → Except ReqError PageResp
  pageFuel : Nat
  detail : Int → Except ReqError AnimalDetail
  parse : String → Option PyDatetime
  submitNet : Nat → Nat → ReqOutcome
  maxRetries : Nat
  batchSize : Nat

/- etl_processor.extract_animal_details: per summary, in order, fetch the
   detail; an APIError is logged, counted and skipped. -/
def extract_animal_details (env : Env) : List AnimalSummary → List AnimalDetail × Nat
  | [] => ([], 0)
  | s :: rest =>
    match env.detail s.id with
    | Except.ok d =>
      (d :: (extract_animal_details env rest).1, (extract_animal_details env rest).2)
    | Except.error _ =>
      ((extract_animal_details env rest).1, (extract_animal_details env rest).2 + 1)

/- The batching of load_animals: transformed_animals[i:i+batch_size] for
   i in range(0, len, batch_size). The fuel is the list length, enough for
   every positive batch size. -/
def chunksAux (bs : Nat) : Nat → List TransformedAnimal → List (List TransformedAnimal)
  | _, [] => []
  | 0, _ :: _ => []
  | fuel + 1, a :: rest => (a :: rest).take bs :: chunksAux bs fuel ((a :: rest).drop bs)

def chunks (bs : Nat) (l : List TransformedAnimal) : List (List TransformedAnimal) :=
  chunksAux bs l.length l

/- The loop body of etl_processor.load_animals over the batches, starting at
   batch index i: returns (total_submitted, failed_batches, batch_number).
   An APIError or ValueError from a batch is counted and the loop continues. -/
def load_go (env : Env) : List (List TransformedAnimal) → Nat → Nat × Nat × Nat
  | [], _ => (0, 0, 0)
  | b :: rest, i =>
    match (submit_animals_batch (env.submitNet i) env.maxRetries b).1 with
    | Except.ok true =>
      (b.length + (load_go env rest (i + 1)).1,
       (load_go env rest (i + 1)).2.1,
       (load_go env rest (i + 1)).2.2 + 1)
    | Except.ok false =>
      ((load_go env rest (i + 1)).1,
       (load_go env rest (i + 1)).2.1 + 1,
       (load_go env rest (i + 1)).2.2 + 1)
    | Except.error _ =>
      ((load_go env rest (i + 1)).1,
       (load_go env rest (i + 1)).2.1 + 1,
       (load_go env rest (i + 1)).2.2 + 1)

/- etl_processor.load_animals: (success flag, submitted, failed, batch_number). -/
def load_animals (env : Env) (tas : List TransformedAnimal) : Bool × Nat × Nat × Nat :=
  let r := load_go env (chunks env.batchSize tas) 0
  (r.2.1 == 0, r)

/- The body of etl_processor.run after a successful extraction: each early
   return yields the statistics accumulated so far (the ETLStats fields
   mutated by the phases that have run), and the final return propagates the
   load_animals success flag. total_batches_submitted is batch_number minus
   failed_batches, as in load_animals. -/
def runPhases (env : Env) (summaries : List AnimalSummary) : Bool × ETLStats :=
  if summaries = [] then
    (true, { emptyStats with total_animals_found := summaries.length })
  else
    if (extract_animal_details env summaries).1 = [] then
      (false,
       { emptyStats with
         total_animals_found := summaries.length,
         total_animals_detailed := (extract_animal_details env summaries).1.length,
         failed_details := (extract_animal_details env summaries).2 })
    else
      if transform_animals_batch env.parse (extract_animal_details env summaries).1 = [] then
        (false,
         { emptyStats with
           total_animals_found := summaries.length,
           total_animals_detailed := (extract_animal_details env summaries).1.length,
           failed_details := (extract_animal_details env summaries).2,
           total_animals_transformed :=
             (transform_animals_batch env.parse (extract_animal_details env summaries).1).length,
           failed_transformations :=
             (extract_animal_details env summaries).1.length
               - (transform_animals_batch env.parse (extract_animal_details env summaries).1).length })
      else
        ((load_animals env
            (transform_animals_batch env.parse (extract_animal_details env summaries).1)).1,
         { emptyStats with
           total_animals_found := summaries.length,
           total_animals_detailed := (extract_animal_details env summaries).1.length,
           failed_details := (extract_animal_details env summaries).2,
           total_animals_transformed :=
             (transform_animals_batch env.parse (extract_animal_details env summaries).1).length,
           failed_transformations :=
             (extract_animal_details env summaries).1.length
               - (transform_animals_batch env.parse (extract_animal_details env summaries).1).length,
           total_animals_submitted :=
             (load_animals env
               (transform_animals_batch env.parse (extract_animal_details env summaries).1)).2.1,
           total_batches_submitted :=
             (load_animals env
               (transform_animals_batch env.parse (extract_animal_details env summaries).1)).2.2.2
               - (load_animals env
                   (transform_animals_batch env.parse
                     (extract_animal_details env summaries).1)).2.2.1,
           failed_submissions :=
             (load_animals env
               (transform_animals_batch env.parse
                 (extract_animal_details env summaries).1)).2.2.1 })

/- etl_processor.run: an extraction failure (any unrecovered APIError from the
   pagination) is caught by the top-level handler and yields False with the
   statistics untouched; none models a pagination loop that does not
   terminate within the fuel. -/
def run (env : Env) : Option (Bool × ETLStats) :=
  match get_all_animals env.pages env.pageFuel with
  | none => none
  | some (Except.error _, _) => some (false, emptyStats)
  | some (Except.ok summaries, _) => some (runPhases env summaries)

/- Batches paired with their batch index, used to state properties of the
   load loop. -/
def enumBatches : Nat → List (List TransformedAnimal) → List (Nat × List TransformedAnimal)
  | _, [] => []
  | i, b :: rest => (i, b) :: enumBatches (i + 1) rest

/- Concrete values used in example evaluations and witnesses. -/

def parse0 : String → Option PyDatetime := fun _ => none

def aniBlankFriend : AnimalDetail :=
  mkAnimalDetail 1 ("pip") (RawFriends.list [" "]) RawBorn.null []

def dtNaive : PyDatetime :=
  { year := 2020, month := 1, day := 1, hour := 0, minute := 0, second := 0,
    tzOffsetMinutes := none }

def aniDatetimeBorn : AnimalDetail :=
  mkAnimalDetail 7 ("cat") (RawFriends.list []) (RawBorn.dt dtNaive) []

def exDetails : List AnimalDetail :=
  [ mkAnimalDetail 1 ("a1") (RawFriends.str ("x,y")) RawBorn.null [],
    mkAnimalDetail 2 ("a2") (RawFriends.str ("")) RawBorn.null [],
    mkAnimalDetail 3 ("a3") (RawFriends.list ["z"]) (RawBorn.str ("not-a-date")) [],
    mkAnimalDetail 4 ("a4") (RawFriends.str ("p, q")) RawBorn.null [],
    mkAnimalDetail 5 ("a5") RawFriends.null RawBorn.null [] ]

def exTransformed : List TransformedAnimal :=
  [ { id := 1, name := "a1", friends := ["x", "y"], born_at := none, extra := [] },
    { id := 2, name := "a2", friends := [], born_at := none, extra := [] },
    { id := 4, name := "a4", friends := ["p", "q"], born_at := none, extra := [] },
    { id := 5, name := "a5", friends := [], born_at := none, extra := [] } ]

/- The consecutive page numbers s, s+1, ..., s+n-1, used to state the
   pagination property. -/
def pageList : Nat → Nat → List Nat
  | _, 0 => []
  | s, n + 1 => s :: pageList (s + 1) n

def pagesW : Nat → PageResp :=
  fun k => { page := k, total_pages := 2, items := [{ id := Int.ofNat k, name := "s" }] }

def worldPagesW : Nat → Except ReqError PageResp := fun k => Except.ok (pagesW k)

def netOK : Nat → ReqOutcome := fun _ => ReqOutcome.response 200 ("")

def taEx : TransformedAnimal :=
  { id := 0, name := "t", friends := [], born_at := none, extra := [] }

def envW : Env :=
  { pages := fun _ => Except.ok { page := 1, total_pages := 1, items := [] },
    pageFuel := 1,
    detail := fun _ => Except.error (ReqError.apiError none none),
    parse := parse0,
    submitNet := fun _ _ => ReqOutcome.response 200 (""),
    maxRetries := MAX_RETRIES,
    batchSize := BATCH_SIZE }

/- Whether transforming record a raises a TransformationError. -/
def transformFails (parse : String → Option PyDatetime) (a : AnimalDetail) : Bool :=
  match transform_animal parse a with
  | Except.ok _ => false
  | Except.error _ => true

/- Whether the submission of batch b at batch index i succeeds. -/
def batchOK (env : Env) (i : Nat) (b : List TransformedAnimal) : Bool :=
  match (submit_animals_batch (env.submitNet i) env.maxRetries b).1 with
  | Except.ok true => true
  | _ => false

/- The total size of the successfully submitted batches, by batch index. -/
def succSubmittedSizes (env : Env) (bs : List (List TransformedAnimal)) (i : Nat) : Nat :=
  (((enumBatches i bs).filter (fun p => batchOK env p.1 p.2)).map
    (fun p => p.2.length)).sum

theorem dropWhile_self {α : Type} (p : α → Bool) (l : List α) :
    (l.dropWhile p).dropWhile p = l.dropWhile p := by
  induction l with
  | nil => rfl
  | cons a t ih =>
    by_cases h : p a = true
    · rw [List.dropWhile_cons_of_pos h]
      exact ih
    · rw [List.dropWhile_cons_of_neg h, List.dropWhile_cons_of_neg h]

theorem rstrip_rstrip (l : List Char) : rstrip (rstrip l) = rstrip l := by
  unfold rstrip
  rw [List.reverse_reverse, dropWhile_self]

theorem exists_rstrip_append (l : List Char) : ∃ t, l = rstrip l ++ t := by
  refine ⟨(l.reverse.takeWhile Char.isWhitespace).reverse, ?_⟩
  have h := List.takeWhile_append_dropWhile (p := Char.isWhitespace) (l := l.reverse)
  calc l = l.reverse.reverse := by rw [List.reverse_reverse]
    _ = (l.reverse.takeWhile Char.isWhitespace ++ l.reverse.dropWhile Char.isWhitespace).reverse := by
        rw [h]
    _ = rstrip l ++ (l.reverse.takeWhile Char.isWhitespace).reverse := by
        rw [List.reverse_append]
        rfl

theorem lstrip_rstrip (l : List Char) (h : lstrip l = l) :
    lstrip (rstrip l) = rstrip l := by
  obtain ⟨t, ht⟩ := exists_rstrip_append l
  cases hr : rstrip l with
  | nil => rfl
  | cons a r =>
    rw [hr] at ht
    have ha : Char.isWhitespace a = false := by
      have h0 := List.head?_dropWhile_not Char.isWhitespace l
      have hdl : l.dropWhile Char.isWhitespace = a :: (r ++ t) := by
        have : lstrip l = a :: (r ++ t) := by rw [h]; exact ht
        exact this
      rw [hdl] at h0
      simpa using h0
    show List.dropWhile Char.isWhitespace (a :: r) = a :: r
    exact List.dropWhile_cons_of_neg (by simp [ha])

theorem stripList_idem (l : List Char) : stripList (stripList l) = stripList l := by
  unfold stripList
  rw [lstrip_rstrip (lstrip l) (dropWhile_self _ _), rstrip_rstrip]

theorem pyStrip_idem (s : String) : pyStrip (pyStrip s) = pyStrip s := by
  unfold pyStrip
  exact congrArg String.mk (stripList_idem s.data)

theorem stripList_eq_nil_all (l : List Char) (h : stripList l = []) :
    ∀ c ∈ l, Char.isWhitespace c = true := by
  intro c hc
  unfold stripList rstrip at h
  have h2 : (lstrip l).reverse.dropWhile Char.isWhitespace = [] := by
    have h3 := congrArg List.reverse h
    rwa [List.reverse_reverse, List.reverse_nil] at h3
  have hall := List.dropWhile_eq_nil_iff.mp h2
  have hsplit := List.takeWhile_append_dropWhile (p := Char.isWhitespace) (l := l)
  rw [← hsplit] at hc
  rcases List.mem_append.mp hc with hc1 | hc2
  · exact List.mem_takeWhile_imp hc1
  · exact hall c (List.mem_reverse.mpr hc2)

theorem splitCommaAux_no_comma (cs : List Char) (h : ∀ c ∈ cs, c ≠ ',') :
    ∀ acc, splitCommaAux cs acc = [acc.reverse ++ cs] := by
  induction cs with
  | nil => intro acc; simp [splitCommaAux]
  | cons c rest ih =>
    intro acc
    have hc : ¬ c = ',' := h c (by simp)
    rw [splitCommaAux, if_neg hc, ih (fun x hx => h x (by simp [hx])) (c :: acc)]
    simp

theorem transform_friends_blank_algo (s : String) (h : pyStrip s = "") :
    ((pySplitComma s).map pyStrip).filter (fun x => x ≠ "") = [] := by
  have hall : ∀ c ∈ s.data, Char.isWhitespace c = true :=
    stripList_eq_nil_all s.data (congrArg String.data h)
  have hnc : ∀ c ∈ s.data, c ≠ ',' := by
    intro c hc heq
    have hw := hall c hc
    rw [heq] at hw
    exact absurd hw (by decide)
  have hsp : pySplitComma s = [s] := by
    unfold pySplitComma
    rw [splitCommaAux_no_comma s.data hnc []]
    simp
  rw [hsp]
  simp [h]

/-- C6: transform_friends maps empty, blank or absent input to the empty list
and agrees with the spec normalization on every input; every non-empty string
is mapped to split-on-comma, trim, drop-empties in order; and the spec example
"a, b,,c" gives ["a","b","c"]. -/
theorem transform_friends_spec_correct :
    (∀ raw, transform_friends raw = normalizeFriends_spec raw)
  ∧ (∀ s : String, s ≠ "" →
      transform_friends (some s) = ((pySplitComma s).map pyStrip).filter (fun x => x ≠ ""))
  ∧ transform_friends (some ("a, b,,c")) = ["a", "b", "c"] := by
  refine ⟨?_, ?_, ?_⟩
  · intro raw
    cases raw with
    | none => rfl
    | some s =>
      by_cases h : pyStrip s = ""
      · simp [transform_friends, normalizeFriends_spec, h]
      · have hs : ¬ s = "" := by
          intro he
          rw [he] at h
          exact h rfl
        simp [transform_friends, normalizeFriends_spec, h, hs]
  · intro s hs
    by_cases h : pyStrip s = ""
    · rw [transform_friends_blank_algo s h]
      simp [transform_friends, h]
    · simp [transform_friends, h, hs]
  · rfl

theorem transform_friends_spec_correct_witness :
    ("a, b,,c" : String) ≠ "" ∧
    transform_friends (some ("a, b,,c"))
      = ((pySplitComma ("a, b,,c")).map pyStrip).filter (fun x => x ≠ "") :=
  ⟨by decide, transform_friends_spec_correct.2.1 ("a, b,,c") (by decide)⟩

theorem transform_animal_friends_eq (parse : String → Option PyDatetime)
    (a : AnimalDetail) (t : TransformedAnimal)
    (h : transform_animal parse a = Except.ok t) :
    t.friends = (match a.friends with
                 | FriendsVal.list l => l
                 | FriendsVal.str s => transform_friends (some s)) := by
  unfold transform_animal at h
  split at h
  · exact absurd h (by simp)
  · injection h with h2
    rw [← h2]

theorem transform_friends_ne_empty (raw : Option String) :
    ∀ x ∈ transform_friends raw, x ≠ "" := by
  intro x hx
  cases raw with
  | none => simp [transform_friends] at hx
  | some s =>
    simp only [transform_friends] at hx
    by_cases h : s = "" ∨ pyStrip s = ""
    · rw [if_pos h] at hx
      simp at hx
    · rw [if_neg h] at hx
      have h2 := List.mem_filter.mp hx
      simpa using h2.2

theorem transform_friends_not_blank (raw : Option String) :
    ∀ x ∈ transform_friends raw, pyStrip x ≠ "" := by
  intro x hx
  cases raw with
  | none => simp [transform_friends] at hx
  | some s =>
    simp only [transform_friends] at hx
    by_cases h : s = "" ∨ pyStrip s = ""
    · rw [if_pos h] at hx
      simp at hx
    · rw [if_neg h] at hx
      obtain ⟨hmem, hne⟩ := List.mem_filter.mp hx
      obtain ⟨piece, hpmem, hp⟩ := List.mem_map.mp hmem
      have hxne : x ≠ "" := by simpa using hne
      rw [← hp, pyStrip_idem, hp]
      exact hxne

/-- C5 counterexample: an AnimalDetail whose validated friends field is the
list [" "] is passed through unchanged by transform_animal, so the transformed
record keeps a whitespace-only (blank) friends entry, refuting the claim that
every produced friends list has no blank entries. -/
theorem transform_animal_blank_friend_passthrough :
    transform_animal parse0 aniBlankFriend
      = Except.ok { id := 1, name := "pip", friends := [" "], born_at := none, extra := [] }
    ∧ pyStrip (" ") = "" :=
  ⟨rfl, rfl⟩

/-- C5 amended: every TransformedAnimal produced by transform_animal from a
validated AnimalDetail has no empty-string friends entries; and when the input
friends field is a delimited string rather than a list, the entries are also
never whitespace-only. Blank (whitespace-only) entries can survive only via
the already-a-list passthrough. -/
theorem transform_animal_friends_no_empty (parse : String → Option PyDatetime)
    (idv : Int) (namev : String) (rf : RawFriends) (rb : RawBorn)
    (extra : List (String × String)) (t : TransformedAnimal)
    (h : transform_animal parse (mkAnimalDetail idv namev rf rb extra) = Except.ok t) :
    (∀ x ∈ t.friends, x ≠ "")
  ∧ (∀ s, rf = RawFriends.str s → ∀ x ∈ t.friends, pyStrip x ≠ "") := by
  have hf := transform_animal_friends_eq parse _ t h
  constructor
  · intro x hx
    rw [hf] at hx
    cases rf with
    | str s => exact transform_friends_ne_empty (some s) x hx
    | list l =>
      have h2 := List.mem_filter.mp hx
      simpa using h2.2
    | null => exact transform_friends_ne_empty (some ("")) x hx
  · intro s hs x hx
    rw [hf] at hx
    subst hs
    exact transform_friends_not_blank (some s) x hx

theorem transform_animal_friends_no_empty_witness :
    transform_animal parse0 (mkAnimalDetail 2 ("kit") (RawFriends.str ("a, b")) RawBorn.null [])
      = Except.ok { id := 2, name := "kit", friends := ["a", "b"], born_at := none, extra := [] }
    ∧ (∀ x ∈ ({ id := 2, name := "kit", friends := ["a", "b"], born_at := none,
                extra := [] } : TransformedAnimal).friends, x ≠ "") :=
  ⟨rfl, (transform_animal_friends_no_empty parse0 2 ("kit") (RawFriends.str ("a, b"))
          RawBorn.null [] _ rfl).1⟩

/-- C1: transform_animal does not route a structured (datetime) born_at value
through the born_at normalization: a timezone-naive datetime is emitted via
isoformat directly, with no UTC marker, whereas transform_born_at (the
normalizeBornAt of the spec, whose datetime branch is unreachable from
transform_animal) would assume UTC and emit the canonical UTC text form. -/
theorem transform_animal_datetime_skips_utc_normalization :
    (transform_animal parse0 aniDatetimeBorn).map (fun t => t.born_at)
      = Except.ok (some ("2020-01-01T00:00:00"))
  ∧ transform_born_at parse0 (some (BornAtVal.dt dtNaive))
      = Except.ok (some ("2020-01-01T00:00:00+00:00"))
  ∧ ("2020-01-01T00:00:00" : String) ≠ ("2020-01-01T00:00:00+00:00") :=
  ⟨rfl, rfl, by decide⟩

theorem transform_animals_batch_filterMap (parse : String → Option PyDatetime)
    (l : List AnimalDetail) :
    transform_animals_batch parse l
      = l.filterMap (fun a => (transform_animal parse a).toOption) := by
  induction l with
  | nil => rfl
  | cons a rest ih =>
    cases h : transform_animal parse a with
    | ok t => simp [transform_animals_batch, h, List.filterMap_cons, Except.toOption, ih]
    | error e => simp [transform_animals_batch, h, List.filterMap_cons, Except.toOption, ih]

theorem transform_animals_batch_length (parse : String → Option PyDatetime)
    (l : List AnimalDetail) :
    (transform_animals_batch parse l).length
      + (l.filter (transformFails parse)).length
      = l.length := by
  induction l with
  | nil => rfl
  | cons a rest ih =>
    rw [List.filter_cons]
    cases h : transform_animal parse a with
    | ok t =>
      have hf : transformFails parse a = false := by simp [transformFails, h]
      rw [hf]
      simp only [Bool.false_eq_true, if_false, transform_animals_batch, h, List.length_cons]
      omega
    | error e =>
      have hf : transformFails parse a = true := by simp [transformFails, h]
      rw [hf]
      simp only [if_true, transform_animals_batch, h, List.length_cons]
      omega

/-- C7: transform_animals_batch transforms each record independently and never
fails as a whole: its output is the order-preserving filterMap of the
per-record transformation (a failing record is dropped), the dropped count
plus the output count equals the input count, and on the spec example of five
details where one has an unparseable born_at string it returns the four
surviving records in their original order. -/
theorem transform_animals_batch_drops_failures :
    (∀ (parse : String → Option PyDatetime) (l : List AnimalDetail),
        transform_animals_batch parse l
          = l.filterMap (fun a => (transform_animal parse a).toOption)
      ∧ (transform_animals_batch parse l).length
          + (l.filter (transformFails parse)).length
          = l.length)
  ∧ transform_animals_batch parse0 exDetails = exTransformed
  ∧ exDetails.length = 5 ∧ exTransformed.length = 4 :=
  ⟨fun parse l =>
      ⟨transform_animals_batch_filterMap parse l, transform_animals_batch_length parse l⟩,
   rfl, rfl, rfl⟩

/-- C4: a persistent non-retryable HTTP status (404) does not fail after a
single request: APIError is inside the tenacity retry exception set, so the
client retries it and issues MAX_RETRIES = 3 requests before surfacing the
typed failure, contradicting the claim that exactly one request is issued and
no retry budget is consumed. -/
theorem make_request_retries_non_retryable_status :
    make_request (fun _ => ReqOutcome.response 404 ("nf")) MAX_RETRIES
      = (Except.error (ReqError.apiError (some 404) (some ("nf"))), 3)
  ∧ MAX_RETRIES = 3 ∧ (3 : Nat) ≠ 1 :=
  ⟨rfl, rfl, by decide⟩

theorem get_all_animals_go_pages (world : Nat → Except ReqError PageResp)
    (P : Nat → PageResp) (N : Nat)
    (hok : ∀ k, 1 ≤ k → k ≤ N → world k = Except.ok (P k))
    (ht : ∀ k, 1 ≤ k → k ≤ N → (P k).total_pages = N) :
    ∀ fuel c n, 1 ≤ c → 1 ≤ n → c + n = N + 1 → n ≤ fuel →
      get_all_animals_go world fuel c
        = some (Except.ok ((pageList c n).map (fun k => (P k).items)).flatten, n) := by
  intro fuel
  induction fuel with
  | zero =>
    intro c n h1 h2 h3 h4
    omega
  | succ m ih =>
    intro c n h1 h2 h3 h4
    have hcN : c ≤ N := by omega
    simp only [get_all_animals_go, hok c h1 hcN]
    by_cases hle : (P c).total_pages ≤ c
    · have hn1 : n = 1 := by
        have h5 := ht c h1 hcN
        omega
      subst hn1
      rw [if_pos hle]
      simp [pageList]
    · rw [if_neg hle]
      have hlt : c < N := by
        have h5 := ht c h1 hcN
        omega
      obtain ⟨n2, rfl⟩ : ∃ n2, n = n2 + 1 := ⟨n - 1, by omega⟩
      have hn2 : 1 ≤ n2 := by omega
      have hrec := ih (c + 1) n2 (by omega) hn2 (by omega) (by omega)
      rw [hrec]
      simp [pageList]

/-- C8: extraction starts at page 1 and advances until the page number reaches
the reported total_pages: when every page 1..N reports total_pages = N (N ≥ 1)
and the fuel covers N iterations, get_all_animals issues exactly N page
requests and returns the concatenation of the N pages' items in page order,
whose length is the sum of the pages' item counts. -/
theorem get_all_animals_paginates (world : Nat → Except ReqError PageResp)
    (P : Nat → PageResp) (N fuel : Nat) (hN : 1 ≤ N) (hfuel : N ≤ fuel)
    (hok : ∀ k, 1 ≤ k → k ≤ N → world k = Except.ok (P k))
    (ht : ∀ k, 1 ≤ k → k ≤ N → (P k).total_pages = N) :
    get_all_animals world fuel
      = some (Except.ok ((pageList 1 N).map (fun k => (P k).items)).flatten, N)
  ∧ (((pageList 1 N).map (fun k => (P k).items)).flatten).length
      = ((pageList 1 N).map (fun k => (P k).items.length)).sum := by
  constructor
  · exact get_all_animals_go_pages world P N hok ht fuel 1 N (by omega) hN (by omega) hfuel
  · rw [List.length_flatten, List.map_map]
    rfl

theorem get_all_animals_paginates_witness :
    (1 : Nat) ≤ 2 ∧
    get_all_animals worldPagesW 2
      = some (Except.ok [{ id := 1, name := "s" }, { id := 2, name := "s" }], 2) :=
  ⟨by decide,
   (get_all_animals_paginates worldPagesW pagesW 2 2 (by decide) (by decide)
      (fun k h1 h2 => rfl) (fun k h1 h2 => rfl)).1⟩

theorem make_request_go_pos (world : Nat → ReqOutcome) :
    ∀ n i, 1 ≤ n → i + 1 ≤ (make_request_go world n i).2 := by
  intro n
  induction n with
  | zero =>
    intro i h
    omega
  | succ m ih =>
    intro i h
    simp only [make_request_go]
    cases hA : attemptOnce (world i) with
    | ok r => simp
    | error e =>
      show i + 1 ≤ (if retryableError e = true ∧ m ≠ 0 then make_request_go world m (i + 1)
        else (Except.error e, i + 1)).2
      by_cases hr : retryableError e = true ∧ m ≠ 0
      · rw [if_pos hr]
        have h2 := ih (i + 1) (by omega)
        omega
      · rw [if_neg hr]

/-- C9: submit_animals_batch raises a ValueError and issues no network request
when given more than 100 records; with at most 100 records it proceeds to the
POST submission, issuing at least one request whenever MAX_RETRIES ≥ 1. -/
theorem submit_animals_batch_size_limit (world : Nat → ReqOutcome) (maxRetries : Nat)
    (animals : List TransformedAnimal) :
    (100 < animals.length →
      submit_animals_batch world maxRetries animals
        = (Except.error (SubmitError.valueError animals.length), 0))
  ∧ (animals.length ≤ 100 → 1 ≤ maxRetries →
      1 ≤ (submit_animals_batch world maxRetries animals).2) := by
  constructor
  · intro h
    simp [submit_animals_batch, h]
  · intro h hm
    have h2 : ¬ 100 < animals.length := by omega
    simp only [submit_animals_batch, if_neg h2]
    cases hmr : make_request world maxRetries with
    | mk r n =>
      have h4 : 1 ≤ n := by
        have h3 := make_request_go_pos world maxRetries 0 hm
        rw [show make_request_go world maxRetries 0 = make_request world maxRetries from rfl,
          hmr] at h3
        simpa using h3
      cases r with
      | ok v => simpa [hmr] using h4
      | error e => simpa [hmr] using h4

theorem submit_animals_batch_size_limit_witness :
    100 < (List.replicate 101 taEx).length ∧
    submit_animals_batch netOK MAX_RETRIES (List.replicate 101 taEx)
      = (Except.error (SubmitError.valueError (List.replicate 101 taEx).length), 0) :=
  ⟨by norm_num,
   (submit_animals_batch_size_limit netOK MAX_RETRIES (List.replicate 101 taEx)).1
     (by norm_num)⟩

theorem chunksAux_join (bs : Nat) (hbs : 1 ≤ bs) :
    ∀ fuel l, l.length ≤ fuel → (chunksAux bs fuel l).flatten = l := by
  intro fuel
  induction fuel with
  | zero =>
    intro l hl
    cases l with
    | nil => rfl
    | cons a r => simp at hl
  | succ m ih =>
    intro l hl
    cases l with
    | nil => rfl
    | cons a r =>
      simp only [chunksAux, List.flatten_cons]
      have hl2 : ((a :: r).drop bs).length ≤ m := by
        simp only [List.length_drop, List.length_cons]
        simp only [List.length_cons] at hl
        omega
      rw [ih ((a :: r).drop bs) hl2]
      exact List.take_append_drop bs (a :: r)

theorem chunksAux_size (bs : Nat) :
    ∀ fuel l b, b ∈ chunksAux bs fuel l → b.length ≤ bs := by
  intro fuel
  induction fuel with
  | zero =>
    intro l b hb
    cases l with
    | nil => simp [chunksAux] at hb
    | cons a r => simp [chunksAux] at hb
  | succ m ih =>
    intro l b hb
    cases l with
    | nil => simp [chunksAux] at hb
    | cons a r =>
      simp only [chunksAux, List.mem_cons] at hb
      rcases hb with hb | hb
      · rw [hb, List.length_take]
        omega
      · exact ih _ b hb

theorem chunksAux_sum_le (bs : Nat) :
    ∀ fuel l, ((chunksAux bs fuel l).map List.length).sum ≤ l.length := by
  intro fuel
  induction fuel with
  | zero =>
    intro l
    cases l <;> simp [chunksAux]
  | succ m ih =>
    intro l
    cases l with
    | nil => simp [chunksAux]
    | cons a r =>
      simp only [chunksAux, List.map_cons, List.sum_cons]
      have h2 := ih ((a :: r).drop bs)
      have h3 : ((a :: r).take bs).length + ((a :: r).drop bs).length = (a :: r).length := by
        rw [← List.length_append, List.take_append_drop]
      omega

theorem load_go_count (env : Env) :
    ∀ bs i, (load_go env bs i).2.2 = bs.length := by
  intro bs
  induction bs with
  | nil => intro i; rfl
  | cons b rest ih =>
    intro i
    cases hs : (submit_animals_batch (env.submitNet i) env.maxRetries b).1 with
    | ok v =>
      cases v with
      | true => simp [load_go, hs, ih]
      | false => simp [load_go, hs, ih]
    | error e => simp [load_go, hs, ih]

theorem load_go_failed_zero (env : Env) :
    ∀ bs i, ((load_go env bs i).2.1 = 0
      ↔ ∀ p ∈ enumBatches i bs,
          (submit_animals_batch (env.submitNet p.1) env.maxRetries p.2).1 = Except.ok true) := by
  intro bs
  induction bs with
  | nil =>
    intro i
    simp [load_go, enumBatches]
  | cons b rest ih =>
    intro i
    cases hs : (submit_animals_batch (env.submitNet i) env.maxRetries b).1 with
    | ok v =>
      cases v with
      | true =>
        simp only [load_go, hs, enumBatches, List.mem_cons]
        constructor
        · intro h0 p hp
          rcases hp with hp | hp
          · rw [hp]
            exact hs
          · exact ((ih (i + 1)).mp h0) p hp
        · intro hall
          exact (ih (i + 1)).mpr (fun p hp => hall p (Or.inr hp))
      | false =>
        simp only [load_go, hs, enumBatches, List.mem_cons]
        constructor
        · intro h0
          simp at h0
        · intro hall
          have h1 := hall (i, b) (Or.inl rfl)
          rw [hs] at h1
          simp at h1
    | error e =>
      simp only [load_go, hs, enumBatches, List.mem_cons]
      constructor
      · intro h0
        simp at h0
      · intro hall
        have h1 := hall (i, b) (Or.inl rfl)
        rw [hs] at h1
        simp at h1

theorem load_go_sum (env : Env) :
    ∀ bs i, (load_go env bs i).1 = succSubmittedSizes env bs i := by
  intro bs
  induction bs with
  | nil => intro i; rfl
  | cons b rest ih =>
    intro i
    cases hs : (submit_animals_batch (env.submitNet i) env.maxRetries b).1 with
    | ok v =>
      cases v with
      | true =>
        have hb : batchOK env i b = true := by simp [batchOK, hs]
        simp only [load_go, hs, succSubmittedSizes, enumBatches, List.filter_cons, hb,
          if_true, List.map_cons, List.sum_cons]
        rw [ih (i + 1)]
        rfl
      | false =>
        have hb : batchOK env i b = false := by simp [batchOK, hs]
        simp only [load_go, hs, succSubmittedSizes, enumBatches, List.filter_cons, hb,
          Bool.false_eq_true, if_false]
        rw [ih (i + 1)]
        rfl
    | error e =>
      have hb : batchOK env i b = false := by simp [batchOK, hs]
      simp only [load_go, hs, succSubmittedSizes, enumBatches, List.filter_cons, hb,
        Bool.false_eq_true, if_false]
      rw [ih (i + 1)]
      rfl

theorem load_go_sub_le (env : Env) :
    ∀ bs i, (load_go env bs i).1 ≤ (bs.map List.length).sum := by
  intro bs
  induction bs with
  | nil =>
    intro i
    simp [load_go]
  | cons b rest ih =>
    intro i
    cases hs : (submit_animals_batch (env.submitNet i) env.maxRetries b).1 with
    | ok v =>
      cases v with
      | true =>
        simp only [load_go, hs, List.map_cons, List.sum_cons]
        have h2 := ih (i + 1)
        omega
      | false =>
        simp only [load_go, hs, List.map_cons, List.sum_cons]
        have h2 := ih (i + 1)
        omega
    | error e =>
      simp only [load_go, hs, List.map_cons, List.sum_cons]
      have h2 := ih (i + 1)
      omega

theorem chunks_single (bs : Nat) (a : TransformedAnimal) (r : List TransformedAnimal)
    (h2 : (a :: r).length ≤ bs) : chunks bs (a :: r) = [a :: r] := by
  unfold chunks
  simp only [List.length_cons, chunksAux]
  rw [List.take_of_length_le (by simpa using h2), List.drop_eq_nil_of_le (by simpa using h2)]
  simp [chunksAux]

/-- C3 counterexample: with a configured batch size of 150 and 150 transformed
records, load partitioning yields a single batch of 150 records, which exceeds
the submission limit of 100, refuting the claim that every batch has the
configured batch size capped by the submission limit of 100. -/
theorem load_batches_not_capped_at_100 :
    chunks 150 (List.replicate 150 taEx) = [List.replicate 150 taEx]
  ∧ (List.replicate 150 taEx).length = 150 ∧ 100 < 150 := by
  refine ⟨?_, by norm_num, by norm_num⟩
  have h : List.replicate 150 taEx = taEx :: List.replicate 149 taEx := by
    rw [show (150 : Nat) = 149 + 1 from rfl, List.replicate_succ]
  rw [h]
  exact chunks_single 150 taEx (List.replicate 149 taEx) (by simp)

/-- C3 amended: LoadAnimals partitions the transformed records into
consecutive batches of exactly the configured batch size (the last possibly
shorter), with no 100-record cap applied during partitioning; a batch
exceeding 100 records is rejected by the submit validation with no network
request and counted as a failed batch; and a batch-level failure never aborts
the loop: every batch is attempted (the batch counter equals the number of
batches). -/
theorem load_batching_amended (env : Env) (ts : List TransformedAnimal)
    (hbs : 1 ≤ env.batchSize) :
    (chunks env.batchSize ts).flatten = ts
  ∧ (∀ b ∈ chunks env.batchSize ts, b.length ≤ env.batchSize)
  ∧ (∀ i b, b ∈ chunks env.batchSize ts → 100 < b.length →
      submit_animals_batch (env.submitNet i) env.maxRetries b
        = (Except.error (SubmitError.valueError b.length), 0))
  ∧ (load_go env (chunks env.batchSize ts) 0).2.2 = (chunks env.batchSize ts).length :=
  ⟨chunksAux_join env.batchSize hbs ts.length ts (le_refl _),
   fun b hb => chunksAux_size env.batchSize ts.length ts b hb,
   fun i b _ h100 => by simp [submit_animals_batch, h100],
   load_go_count env (chunks env.batchSize ts) 0⟩

theorem load_batching_amended_witness :
    1 ≤ envW.batchSize ∧ (chunks envW.batchSize [taEx]).flatten = [taEx] :=
  ⟨by decide, (load_batching_amended envW [taEx] (by decide)).1⟩

theorem extract_animal_details_length (env : Env) :
    ∀ l, (extract_animal_details env l).1.length + (extract_animal_details env l).2
      = l.length := by
  intro l
  induction l with
  | nil => rfl
  | cons s rest ih =>
    cases hd : env.detail s.id with
    | ok d =>
      simp only [extract_animal_details, hd, List.length_cons]
      omega
    | error e =>
      simp only [extract_animal_details, hd, List.length_cons]
      omega

theorem transform_animals_batch_le (parse : String → Option PyDatetime)
    (l : List AnimalDetail) :
    (transform_animals_batch parse l).length ≤ l.length := by
  have h := transform_animals_batch_length parse l
  omega

theorem run_extract_error (env : Env) (e : ReqError) (n : Nat)
    (hga : get_all_animals env.pages env.pageFuel = some (Except.error e, n)) :
    run env = some (false, emptyStats) := by
  unfold run
  rw [hga]

theorem run_ok (env : Env) (l : List AnimalSummary) (n : Nat)
    (hga : get_all_animals env.pages env.pageFuel = some (Except.ok l, n)) :
    run env = some (runPhases env l) := by
  unfold run
  rw [hga]

theorem runPhases_nil_case (env : Env) :
    runPhases env [] = (true, { emptyStats with total_animals_found := 0 }) := rfl

theorem runPhases_details_nil_case (env : Env) (l : List AnimalSummary)
    (h1 : l ≠ []) (h2 : (extract_animal_details env l).1 = []) :
    runPhases env l =
      (false,
       { emptyStats with
         total_animals_found := l.length,
         total_animals_detailed := (extract_animal_details env l).1.length,
         failed_details := (extract_animal_details env l).2 }) := by
  unfold runPhases
  rw [if_neg h1, if_pos h2]

theorem runPhases_transform_nil_case (env : Env) (l : List AnimalSummary)
    (h1 : l ≠ []) (h2 : (extract_animal_details env l).1 ≠ [])
    (h3 : transform_animals_batch env.parse (extract_animal_details env l).1 = []) :
    runPhases env l =
      (false,
       { emptyStats with
         total_animals_found := l.length,
         total_animals_detailed := (extract_animal_details env l).1.length,
         failed_details := (extract_animal_details env l).2,
         total_animals_transformed :=
           (transform_animals_batch env.parse (extract_animal_details env l).1).length,
         failed_transformations :=
           (extract_animal_details env l).1.length
             - (transform_animals_batch env.parse (extract_animal_details env l).1).length }) := by
  unfold runPhases
  rw [if_neg h1, if_neg h2, if_pos h3]

theorem runPhases_load_case (env : Env) (l : List AnimalSummary)
    (h1 : l ≠ []) (h2 : (extract_animal_details env l).1 ≠ [])
    (h3 : transform_animals_batch env.parse (extract_animal_details env l).1 ≠ []) :
    runPhases env l =
      ((load_go env
          (chunks env.batchSize
            (transform_animals_batch env.parse (extract_animal_details env l).1)) 0).2.1 == 0,
       { total_animals_found := l.length,
         total_animals_detailed := (extract_animal_details env l).1.length,
         total_animals_transformed :=
           (transform_animals_batch env.parse (extract_animal_details env l).1).length,
         total_animals_submitted :=
           (load_go env
             (chunks env.batchSize
               (transform_animals_batch env.parse (extract_animal_details env l).1)) 0).1,
         total_batches_submitted :=
           (load_go env
             (chunks env.batchSize
               (transform_animals_batch env.parse (extract_animal_details env l).1)) 0).2.2
           - (load_go env
               (chunks env.batchSize
                 (transform_animals_batch env.parse (extract_animal_details env l).1)) 0).2.1,
         failed_details := (extract_animal_details env l).2,
         failed_transformations :=
           (extract_animal_details env l).1.length
             - (transform_animals_batch env.parse (extract_animal_details env l).1).length,
         failed_submissions :=
           (load_go env
             (chunks env.batchSize
               (transform_animals_batch env.parse (extract_animal_details env l).1)) 0).2.1 }) := by
  unfold runPhases
  rw [if_neg h1, if_neg h2, if_neg h3]
  rfl

/-- C2: the overall result of run is: failure on any unrecovered transport
failure during extraction; success when extraction finds zero summaries;
failure when a non-empty extraction yields zero details, or a non-empty detail
set yields zero transformed records; otherwise success exactly when every
submitted batch succeeded. -/
theorem run_overall_success_semantics (env : Env) (b : Bool) (st : ETLStats)
    (h : run env = some (b, st)) :
    (∀ e n, get_all_animals env.pages env.pageFuel = some (Except.error e, n) → b = false)
  ∧ (∀ n, get_all_animals env.pages env.pageFuel = some (Except.ok [], n) → b = true)
  ∧ (∀ l n, get_all_animals env.pages env.pageFuel = some (Except.ok l, n) → l ≠ [] →
      ((extract_animal_details env l).1 = [] → b = false)
    ∧ ((extract_animal_details env l).1 ≠ [] →
        (transform_animals_batch env.parse (extract_animal_details env l).1 = [] → b = false)
      ∧ (transform_animals_batch env.parse (extract_animal_details env l).1 ≠ [] →
          (b = true ↔ ∀ p ∈ enumBatches 0
              (chunks env.batchSize
                (transform_animals_batch env.parse (extract_animal_details env l).1)),
            (submit_animals_batch (env.submitNet p.1) env.maxRetries p.2).1
              = Except.ok true)))) := by
  refine ⟨?_, ?_, ?_⟩
  · intro e n hga
    rw [run_extract_error env e n hga] at h
    exact (congrArg Prod.fst (Option.some.inj h)).symm
  · intro n hga
    rw [run_ok env [] n hga] at h
    have hb : (runPhases env []).1 = b := congrArg Prod.fst (Option.some.inj h)
    rw [← hb, runPhases_nil_case]
  · intro l n hga hl
    rw [run_ok env l n hga] at h
    have hb : (runPhases env l).1 = b := congrArg Prod.fst (Option.some.inj h)
    refine ⟨?_, ?_⟩
    · intro hd
      rw [← hb, runPhases_details_nil_case env l hl hd]
    · intro hd
      refine ⟨?_, ?_⟩
      · intro htr
        rw [← hb, runPhases_transform_nil_case env l hl hd htr]
      · intro htr
        rw [← hb, runPhases_load_case env l hl hd htr]
        rw [show ((load_go env
            (chunks env.batchSize
              (transform_animals_batch env.parse (extract_animal_details env l).1)) 0).2.1 == 0,
            ({ total_animals_found := l.length,
               total_animals_detailed := (extract_animal_details env l).1.length,
               total_animals_transformed :=
                 (transform_animals_batch env.parse (extract_animal_details env l).1).length,
               total_animals_submitted :=
                 (load_go env
                   (chunks env.batchSize
                     (transform_animals_batch env.parse (extract_animal_details env l).1)) 0).1,
               total_batches_submitted :=
                 (load_go env
                   (chunks env.batchSize
                     (transform_animals_batch env.parse (extract_animal_details env l).1)) 0).2.2
                 - (load_go env
                     (chunks env.batchSize
                       (transform_animals_batch env.parse (extract_animal_details env l).1)) 0).2.1,
               failed_details := (extract_animal_details env l).2,
               failed_transformations :=
                 (extract_animal_details env l).1.length
                   - (transform_animals_batch env.parse (extract_animal_details env l).1).length,
               failed_submissions :=
                 (load_go env
                   (chunks env.batchSize
                     (transform_animals_batch env.parse (extract_animal_details env l).1)) 0).2.1 }
              : ETLStats)).1
          = ((load_go env
              (chunks env.batchSize
                (transform_animals_batch env.parse (extract_animal_details env l).1)) 0).2.1 == 0)
          from rfl]
        rw [beq_iff_eq]
        exact load_go_failed_zero env
          (chunks env.batchSize
            (transform_animals_batch env.parse (extract_animal_details env l).1)) 0

theorem run_overall_success_semantics_witness :
    run envW = some (true, { emptyStats with total_animals_found := 0 })
  ∧ (true : Bool) = true :=
  ⟨rfl,
   (run_overall_success_semantics envW true
      { emptyStats with total_animals_found := 0 } rfl).2.1 1 rfl⟩

/-- C10: after run returns, the accumulated statistics satisfy the accounting
identities: total_animals_submitted is at most total_animals_transformed; when
the detailing phase ran, total_animals_detailed + failed_details equals
total_animals_found; when the transform phase ran, total_animals_transformed +
failed_transformations equals total_animals_detailed; and when the load phase
ran, total_animals_submitted equals the sum of the sizes of the successfully
submitted batches. -/
theorem run_stats_accounting (env : Env) (b : Bool) (st : ETLStats)
    (h : run env = some (b, st)) :
    st.total_animals_submitted ≤ st.total_animals_transformed
  ∧ (∀ l n, get_all_animals env.pages env.pageFuel = some (Except.ok l, n) → l ≠ [] →
        (st.total_animals_detailed + st.failed_details = st.total_animals_found
      ∧ ((extract_animal_details env l).1 ≠ [] →
          st.total_animals_transformed + st.failed_transformations
            = st.total_animals_detailed)
      ∧ ((extract_animal_details env l).1 ≠ [] →
          transform_animals_batch env.parse (extract_animal_details env l).1 ≠ [] →
          st.total_animals_submitted = succSubmittedSizes env
            (chunks env.batchSize
              (transform_animals_batch env.parse (extract_animal_details env l).1)) 0))) := by
  cases hga : get_all_animals env.pages env.pageFuel with
  | none =>
    have h0 : run env = none := by
      unfold run
      rw [hga]
    rw [h0] at h
    exact absurd h (by simp)
  | some r =>
    rcases r with ⟨res, nq⟩
    cases res with
    | error e0 =>
      rw [run_extract_error env e0 nq hga] at h
      have hst : emptyStats = st := congrArg Prod.snd (Option.some.inj h)
      subst hst
      refine ⟨Nat.le_refl 0, ?_⟩
      intro l n hga2 hl
      simp at hga2
    | ok summaries =>
      rw [run_ok env summaries nq hga] at h
      have hst : (runPhases env summaries).2 = st := congrArg Prod.snd (Option.some.inj h)
      by_cases hnil : summaries = []
      · subst hnil
        rw [runPhases_nil_case] at hst
        subst hst
        refine ⟨Nat.le_refl 0, ?_⟩
        intro l n hga2 hl
        have h3 : ([] : List AnimalSummary) = l :=
          Except.ok.inj (congrArg Prod.fst (Option.some.inj hga2))
        exact absurd h3.symm hl
      · by_cases hd : (extract_animal_details env summaries).1 = []
        · rw [runPhases_details_nil_case env summaries hnil hd] at hst
          subst hst
          refine ⟨Nat.le_refl 0, ?_⟩
          intro l n hga2 hl
          have hls : summaries = l :=
            Except.ok.inj (congrArg Prod.fst (Option.some.inj hga2))
          subst hls
          refine ⟨extract_animal_details_length env summaries, ?_, ?_⟩
          · intro hd2
            exact absurd hd hd2
          · intro hd2 _
            exact absurd hd hd2
        · by_cases htr : transform_animals_batch env.parse
              (extract_animal_details env summaries).1 = []
          · rw [runPhases_transform_nil_case env summaries hnil hd htr] at hst
            subst hst
            refine ⟨Nat.zero_le _, ?_⟩
            intro l n hga2 hl
            have hls : summaries = l :=
              Except.ok.inj (congrArg Prod.fst (Option.some.inj hga2))
            subst hls
            refine ⟨extract_animal_details_length env summaries, ?_, ?_⟩
            · intro hd2
              show (transform_animals_batch env.parse
                    (extract_animal_details env summaries).1).length
                  + ((extract_animal_details env summaries).1.length
                     - (transform_animals_batch env.parse
                         (extract_animal_details env summaries).1).length)
                = (extract_animal_details env summaries).1.length
              have h5 := transform_animals_batch_le env.parse
                (extract_animal_details env summaries).1
              omega
            · intro _ htr2
              exact absurd htr htr2
          · rw [runPhases_load_case env summaries hnil hd htr] at hst
            subst hst
            refine ⟨?_, ?_⟩
            · show (load_go env
                  (chunks env.batchSize
                    (transform_animals_batch env.parse
                      (extract_animal_details env summaries).1)) 0).1
                ≤ (transform_animals_batch env.parse
                    (extract_animal_details env summaries).1).length
              exact le_trans
                (load_go_sub_le env
                  (chunks env.batchSize
                    (transform_animals_batch env.parse
                      (extract_animal_details env summaries).1)) 0)
                (chunksAux_sum_le env.batchSize
                  (transform_animals_batch env.parse
                    (extract_animal_details env summaries).1).length
                  (transform_animals_batch env.parse
                    (extract_animal_details env summaries).1))
            · intro l n hga2 hl
              have hls : summaries = l :=
                Except.ok.inj (congrArg Prod.fst (Option.some.inj hga2))
              subst hls
              refine ⟨extract_animal_details_length env summaries, ?_, ?_⟩
              · intro hd2
                show (transform_animals_batch env.parse
                      (extract_animal_details env summaries).1).length
                    + ((extract_animal_details env summaries).1.length
                       - (transform_animals_batch env.parse
                           (extract_animal_details env summaries).1).length)
                  = (extract_animal_details env summaries).1.length
                have h5 := transform_animals_batch_le env.parse
                  (extract_animal_details env summaries).1
                omega
              · intro _ _
                exact load_go_sum env
                  (chunks env.batchSize
                    (transform_animals_batch env.parse
                      (extract_animal_details env summaries).1)) 0

theorem run_stats_accounting_witness :
    run envW = some (true, { emptyStats with total_animals_found := 0 })
  ∧ ({ emptyStats with total_animals_found := 0 } : ETLStats).total_animals_submitted
      ≤ ({ emptyStats with total_animals_found := 0 } : ETLStats).total_animals_transformed :=
  ⟨rfl,
   (run_stats_accounting envW true { emptyStats with total_animals_found := 0 } rfl).1⟩

end HotAnimals
